import Mathlib

/-!
Shallow embedding of the account-monitor excerpt of CLIProxyAPI
(internal/api/handlers/management/account_monitor.go), covering the
wire data model, the server-side aggregation loop of GetAccountsMonitor,
and the client-side functions getAccountStatus, formatDuration and the
filter of renderAccounts embedded in the monitor page script.

Modelling conventions:
- Go time.Time is modelled as Int; the zero time value is 0, IsZero t is
  t = 0, and t.After(now) is t > now.
- Go map[string]interface{} metadata is modelled as an optional
  association list from String to MetaVal.
- The wire JSON map built for last_error is modelled as an association
  list from String to JVal.
- extractLastRefreshTimestamp is defined outside the excerpt; the
  aggregation takes it as an explicit function parameter, since no claim
  depends on its output.
-/

namespace AccountMonitor

/-- Value of a metadata entry: either a string (the only shape the code
inspects) or anything else. -/
inductive MetaVal
  | str : String → MetaVal
  | other : MetaVal
deriving DecidableEq

/-- The LastError record attached to an auth account. -/
structure AuthLastError where
  code : String
  message : String
  httpStatus : Int
deriving DecidableEq

/-- The quota sub-record of an auth account. -/
structure Quota where
  exceeded : Bool
  reason : String
  backoffLevel : Int
  nextRecoverAt : Int
deriving DecidableEq

/-- An auth account record as read from the registry. -/
structure Auth where
  id : String
  provider : String
  label : String
  status : String
  statusMessage : String
  disabled : Bool
  unavailable : Bool
  quota : Quota
  nextRetryAfter : Int
  lastError : Option AuthLastError
  metadata : Option (List (String × MetaVal))
  createdAt : Int
  updatedAt : Int
  index : Nat
deriving DecidableEq

/-- A JSON value appearing in the projected last_error map. -/
inductive JVal
  | jstr : String → JVal
  | jint : Int → JVal
deriving DecidableEq

/-- The projected, wire-level AccountStatus. Optional wire fields are
Option; the omitempty string fields keep their empty default. -/
structure AccountStatus where
  id : String
  provider : String
  label : String
  email : String
  status : String
  statusMessage : String
  disabled : Bool
  unavailable : Bool
  quotaExceeded : Bool
  quotaReason : String
  nextRecoverAt : Option Int
  nextRetryAt : Option Int
  backoffLevel : Int
  lastError : Option (List (String × JVal))
  lastRefresh : Option Int
  createdAt : Int
  updatedAt : Int
  index : Nat
deriving DecidableEq

/-- The AccountsMonitorResponse snapshot. -/
structure AccountsMonitorResponse where
  timestamp : Int
  totalCount : Nat
  activeCount : Nat
  errorCount : Nat
  cooldownCount : Nat
  accounts : List AccountStatus
deriving DecidableEq

/-- Email extraction from metadata: the string value at key "email" if
present and string-shaped, otherwise the empty default. -/
def extractEmail (md : Option (List (String × MetaVal))) : String :=
  match md with
  | none => ""
  | some m =>
    match m.lookup "email" with
    | some (MetaVal.str s) => s
    | _ => ""

/-- The last_error wire map: code and message always, http_status only
when the integer is non-zero. -/
def lastErrorMap (e : AuthLastError) : List (String × JVal) :=
  ("code", JVal.jstr e.code) :: ("message", JVal.jstr e.message) ::
    (if e.httpStatus ≠ 0 then [("http_status", JVal.jint e.httpStatus)] else [])

/-- Projection of one auth record to its wire AccountStatus, following
the per-account body of the loop in GetAccountsMonitor. The parameter
elr stands for extractLastRefreshTimestamp, defined outside the excerpt. -/
def projectAccount (elr : Option (List (String × MetaVal)) → Option Int)
    (a : Auth) : AccountStatus :=
  { id := a.id
    provider := a.provider
    label := a.label
    email := extractEmail a.metadata
    status := a.status
    statusMessage := a.statusMessage
    disabled := a.disabled
    unavailable := a.unavailable
    quotaExceeded := a.quota.exceeded
    quotaReason := a.quota.reason
    nextRecoverAt := if a.quota.nextRecoverAt ≠ 0 then some a.quota.nextRecoverAt else none
    nextRetryAt := if a.nextRetryAfter ≠ 0 then some a.nextRetryAfter else none
    backoffLevel := a.quota.backoffLevel
    lastError := a.lastError.map lastErrorMap
    lastRefresh := elr a.metadata
    createdAt := a.createdAt
    updatedAt := a.updatedAt
    index := a.index }

/-- The four classification buckets. -/
inductive Bucket
  | active
  | error
  | cooldown
  | disabled
deriving DecidableEq

/-- Server-side classification of one account, read off the count
branches of the loop in GetAccountsMonitor. -/
def serverClassify (a : Auth) (now : Int) : Bucket :=
  if a.disabled then Bucket.disabled
  else if a.quota.exceeded ∨ (a.unavailable ∧ a.quota.nextRecoverAt ≠ 0 ∧ a.quota.nextRecoverAt > now) then
    Bucket.cooldown
  else if a.unavailable ∨ a.status = "error" then Bucket.error
  else Bucket.active

/-- One iteration of the aggregation loop of GetAccountsMonitor: skip a
nil entry; otherwise append the projection, bump totalCount, and bump
the one bucket the count branches select. -/
def monitorStep (elr : Option (List (String × MetaVal)) → Option Int) (now : Int)
    (r : AccountsMonitorResponse) (auth : Option Auth) : AccountsMonitorResponse :=
  match auth with
  | none => r
  | some a =>
    let r1 : AccountsMonitorResponse :=
      { r with accounts := r.accounts ++ [projectAccount elr a], totalCount := r.totalCount + 1 }
    if a.disabled then r1
    else if a.quota.exceeded ∨ (a.unavailable ∧ a.quota.nextRecoverAt ≠ 0 ∧ a.quota.nextRecoverAt > now) then
      { r1 with cooldownCount := r1.cooldownCount + 1 }
    else if a.unavailable ∨ a.status = "error" then
      { r1 with errorCount := r1.errorCount + 1 }
    else
      { r1 with activeCount := r1.activeCount + 1 }

/-- The snapshot built by GetAccountsMonitor from the registry list. -/
def buildMonitorResponse (elr : Option (List (String × MetaVal)) → Option Int)
    (auths : List (Option Auth)) (now : Int) : AccountsMonitorResponse :=
  auths.foldl (monitorStep elr now)
    { timestamp := now, totalCount := 0, activeCount := 0, errorCount := 0,
      cooldownCount := 0, accounts := [] }

/-- The handler: its authManager collaborator may be absent; when present
it is the registry whose List method yields the account list. -/
structure Handler where
  authManager : Option (List (Option Auth))
deriving DecidableEq

/-- Body of the HTTP response: a short error message or the snapshot. -/
inductive MonitorBody
  | err : String → MonitorBody
  | ok : AccountsMonitorResponse → MonitorBody
deriving DecidableEq

/-- The GetAccountsMonitor endpoint: status code and body, including the
nil-handler and nil-authManager guard branches. -/
def GetAccountsMonitor (elr : Option (List (String × MetaVal)) → Option Int)
    (h : Option Handler) (now : Int) : Nat × MonitorBody :=
  match h with
  | none => (500, MonitorBody.err "handler not initialized")
  | some hd =>
    match hd.authManager with
    | none => (503, MonitorBody.err "auth manager not available")
    | some auths => (200, MonitorBody.ok (buildMonitorResponse elr auths now))

/-- Client-side classifier getAccountStatus from the monitor page script.
The wire next_recover_at is a non-empty timestamp string whenever
present, so its truthiness test is isSome. -/
def getAccountStatus (a : AccountStatus) : String :=
  if a.disabled then "disabled"
  else if a.quotaExceeded then "cooldown"
  else if a.unavailable ∧ a.nextRecoverAt.isSome then "cooldown"
  else if a.unavailable ∨ a.status = "error" then "error"
  else "active"

/-- Client-side formatDuration from the monitor page script. The
argument is a millisecond count; for positive input the chained
Math.floor divisions coincide with integer division. -/
def formatDuration (ms : Int) : String :=
  if ms ≤ 0 then "now"
  else
    let s := ms / 1000
    let m := s / 60
    let h := m / 60
    if h > 0 then toString h ++ "h " ++ toString (m % 60) ++ "m"
    else if m > 0 then toString m ++ "m " ++ toString (s % 60) ++ "s"
    else toString s ++ "s"

/-- Modelled from the spec: render a positive duration as the largest
two non-zero units among hours, minutes and seconds, and a non-positive
one as "now". Compared against formatDuration of the code. -/
def specFormatDuration (ms : Int) : String :=
  if ms ≤ 0 then "now"
  else
    let s := ms / 1000
    let units := [(s / 3600, "h"), (s / 60 % 60, "m"), (s % 60, "s")]
    let nz := units.filter (fun u => u.1 ≠ 0)
    String.intercalate " " ((nz.take 2).map (fun u => toString u.1 ++ u.2))

/-- ASCII-wise lowercasing, modelling the JavaScript toLowerCase call. -/
def lowerStr (s : String) : String := String.mk (s.data.map Char.toLower)

/-- Substring test on strings, modelling the JavaScript includes call. -/
def strIncludes (s pat : String) : Bool := decide (pat.data <:+: s.data)

/-- The filter predicate of renderAccounts: providerFilter is already
lowercased by the caller; a truthy providerFilter must be an includes
match on the lowercased provider, and a truthy statusFilter must equal
getAccountStatus exactly. -/
def jsKeeps (providerFilter statusFilter : String) (a : AccountStatus) : Bool :=
  if providerFilter ≠ "" ∧ strIncludes (lowerStr a.provider) providerFilter = false then false
  else if statusFilter ≠ "" ∧ getAccountStatus a ≠ statusFilter then false
  else true

/-- The filtering step of renderAccounts: lowercase the raw provider
filter value, then keep the accounts passing both active filters. -/
def renderFilter (providerFilterRaw statusFilter : String)
    (accounts : List AccountStatus) : List AccountStatus :=
  accounts.filter (jsKeeps (lowerStr providerFilterRaw) statusFilter)

/-- The keep predicate in the words of the claim: a non-empty provider
filter keeps an account iff the filter is a case-insensitive substring
of the provider, and a non-empty status filter keeps an account iff the
client classifier output equals it exactly; conjunction of both. -/
def claimKeeps (pf sf : String) (a : AccountStatus) : Bool :=
  (decide (pf = "") || strIncludes (lowerStr a.provider) (lowerStr pf)) &&
    (decide (sf = "") || decide (getAccountStatus a = sf))

/-- Number of accounts of a list classified into a given bucket. -/
def classCount (b : Bucket) (L : List Auth) (now : Int) : Nat :=
  (L.filter (fun a => serverClassify a now = b)).length

/-- A trivial stand-in for extractLastRefreshTimestamp, used to
instantiate witnesses at a concrete extraction function. -/
def elr0 : Option (List (String × MetaVal)) → Option Int := fun _ => none

/-- A quota record with every field at its zero value. -/
def baseQuota : Quota :=
  { exceeded := false, reason := "", backoffLevel := 0, nextRecoverAt := 0 }

/-- A nominal account: enabled, available, no quota pressure. -/
def baseAuth : Auth :=
  { id := "acct-1", provider := "codex", label := "", status := "",
    statusMessage := "", disabled := false, unavailable := false,
    quota := baseQuota, nextRetryAfter := 0, lastError := none,
    metadata := none, createdAt := 0, updatedAt := 0, index := 0 }

/-- An unavailable account whose nextRecoverAt of 5 is already in the
past at evaluation time 10. -/
def recoveredAuth : Auth :=
  { baseAuth with unavailable := true, quota := { baseQuota with nextRecoverAt := 5 } }

/-- A disabled account that is also quota-exceeded. -/
def disabledAuth : Auth :=
  { baseAuth with disabled := true, quota := { baseQuota with exceeded := true } }

/-- A quota-exceeded account also carrying the error status string. -/
def exceededErrorAuth : Auth :=
  { baseAuth with status := "error", quota := { baseQuota with exceeded := true } }

/-- An account whose last error has empty code and message and zero
http status. -/
def emptyLastErrorAuth : Auth :=
  { baseAuth with lastError := some { code := "", message := "", httpStatus := 0 } }

/-- An account whose last error is fully populated. -/
def fullLastErrorAuth : Auth :=
  { baseAuth with lastError := some { code := "quota", message := "exhausted", httpStatus := 429 } }

/-- A wire account with provider codex that classifies as active. -/
def codexActive : AccountStatus := projectAccount elr0 baseAuth

/-- A claude account record that is quota-exceeded. -/
def claudeAuth : Auth :=
  { baseAuth with
    id := "acct-2"
    provider := "claude"
    quota := { baseQuota with exceeded := true } }

/-- A wire account with provider claude that classifies as cooldown. -/
def claudeCooldown : AccountStatus := projectAccount elr0 claudeAuth

/-- Whether a JSON value is populated: a non-empty string or a non-zero
integer. Used to state the populated-sub-fields claim. -/
def jvalPopulated : JVal → Bool
  | JVal.jstr v => decide (v ≠ "")
  | JVal.jint v => decide (v ≠ 0)

/-- A handler whose authManager collaborator is absent. -/
def emptyHandler : Handler := { authManager := none }

/-- A registry list holding a nominal account, a nil entry and a
disabled account. -/
def demoList : List (Option Auth) := [some baseAuth, none, some disabledAuth]

/-- A handler whose authManager yields demoList. -/
def demoHandler : Handler := { authManager := some demoList }

theorem monitorStep_none (elr : Option (List (String × MetaVal)) → Option Int)
    (now : Int) (r : AccountsMonitorResponse) : monitorStep elr now r none = r := rfl

theorem monitorStep_some (elr : Option (List (String × MetaVal)) → Option Int)
    (now : Int) (r : AccountsMonitorResponse) (a : Auth) :
    monitorStep elr now r (some a) =
      { timestamp := r.timestamp
        totalCount := r.totalCount + 1
        activeCount := r.activeCount + (if serverClassify a now = Bucket.active then 1 else 0)
        errorCount := r.errorCount + (if serverClassify a now = Bucket.error then 1 else 0)
        cooldownCount := r.cooldownCount + (if serverClassify a now = Bucket.cooldown then 1 else 0)
        accounts := r.accounts ++ [projectAccount elr a] } := by
  simp only [monitorStep, serverClassify]
  split_ifs <;> simp_all

theorem classCount_cons (b : Bucket) (a : Auth) (L : List Auth) (now : Int) :
    classCount b (a :: L) now =
      (if serverClassify a now = b then 1 else 0) + classCount b L now := by
  by_cases h : serverClassify a now = b <;>
    simp [classCount, List.filter_cons, h, Nat.add_comm]

theorem filterMap_id_cons_none (t : List (Option Auth)) :
    (none :: t).filterMap id = t.filterMap id := rfl

theorem filterMap_id_cons_some (a : Auth) (t : List (Option Auth)) :
    (some a :: t).filterMap id = a :: t.filterMap id := rfl

theorem foldl_monitorStep (elr : Option (List (String × MetaVal)) → Option Int)
    (now : Int) (l : List (Option Auth)) (r : AccountsMonitorResponse) :
    l.foldl (monitorStep elr now) r =
      { timestamp := r.timestamp
        totalCount := r.totalCount + (l.filterMap id).length
        activeCount := r.activeCount + classCount Bucket.active (l.filterMap id) now
        errorCount := r.errorCount + classCount Bucket.error (l.filterMap id) now
        cooldownCount := r.cooldownCount + classCount Bucket.cooldown (l.filterMap id) now
        accounts := r.accounts ++ (l.filterMap id).map (projectAccount elr) } := by
  induction l generalizing r with
  | nil => simp [classCount]
  | cons o t ih =>
    cases o with
    | none =>
      rw [List.foldl_cons, monitorStep_none, ih, filterMap_id_cons_none]
    | some a =>
      rw [List.foldl_cons, monitorStep_some, ih, filterMap_id_cons_some]
      simp only [classCount_cons, List.length_cons, List.map_cons]
      generalize (if serverClassify a now = Bucket.active then (1 : Nat) else 0) = ia
      generalize (if serverClassify a now = Bucket.error then (1 : Nat) else 0) = ie
      generalize (if serverClassify a now = Bucket.cooldown then (1 : Nat) else 0) = ic
      rw [AccountsMonitorResponse.mk.injEq]
      exact ⟨rfl, by omega, by omega, by omega, by omega, by simp⟩

theorem buildMonitorResponse_spec (elr : Option (List (String × MetaVal)) → Option Int)
    (l : List (Option Auth)) (now : Int) :
    buildMonitorResponse elr l now =
      { timestamp := now
        totalCount := (l.filterMap id).length
        activeCount := classCount Bucket.active (l.filterMap id) now
        errorCount := classCount Bucket.error (l.filterMap id) now
        cooldownCount := classCount Bucket.cooldown (l.filterMap id) now
        accounts := (l.filterMap id).map (projectAccount elr) } := by
  unfold buildMonitorResponse
  rw [foldl_monitorStep]
  simp

theorem classCount_partition (L : List Auth) (now : Int) :
    classCount Bucket.active L now + classCount Bucket.error L now +
      classCount Bucket.cooldown L now + classCount Bucket.disabled L now = L.length := by
  induction L with
  | nil => rfl
  | cons a t ih =>
    simp only [classCount_cons, List.length_cons]
    cases h : serverClassify a now <;> simp [h] <;> omega

theorem serverClassify_eq_disabled (a : Auth) (now : Int) :
    serverClassify a now = Bucket.disabled ↔ a.disabled = true := by
  unfold serverClassify
  split_ifs with h1 h2 h3 <;> simp_all

theorem classCount_disabled_eq_zero_iff (L : List Auth) (now : Int) :
    classCount Bucket.disabled L now = 0 ↔ ∀ a ∈ L, a.disabled = false := by
  simp [classCount, List.length_eq_zero, List.filter_eq_nil_iff, serverClassify_eq_disabled]

theorem lowerStr_empty_iff (s : String) : lowerStr s = "" ↔ s = "" := by
  obtain ⟨data⟩ := s
  cases data with
  | nil => exact ⟨fun _ => rfl, fun _ => rfl⟩
  | cons c cs =>
    simp only [lowerStr]
    constructor <;> intro h
    · exact absurd (congrArg String.data h) (by simp)
    · exact absurd (congrArg String.data h) (by simp)

theorem jsKeeps_eq_claimKeeps (pf sf : String) (a : AccountStatus) :
    jsKeeps (lowerStr pf) sf a = claimKeeps pf sf a := by
  unfold jsKeeps claimKeeps
  by_cases hpf : pf = ""
  · subst hpf
    by_cases hsf : sf = ""
    · simp [lowerStr, hsf]
    · by_cases hst : getAccountStatus a = sf <;> simp [lowerStr, hsf, hst]
  · have hl : ¬ lowerStr pf = "" := fun h => hpf ((lowerStr_empty_iff pf).1 h)
    cases hinc : strIncludes (lowerStr a.provider) (lowerStr pf) with
    | false => simp [hl, hinc, hpf]
    | true =>
      by_cases hsf : sf = ""
      · simp [hl, hinc, hpf, hsf]
      · by_cases hst : getAccountStatus a = sf <;> simp [hl, hinc, hpf, hsf, hst]

theorem formatDuration_pos (ms : Int) (h : 0 < ms) :
    formatDuration ms =
      (if ms / 1000 / 60 / 60 > 0 then
        toString (ms / 1000 / 60 / 60) ++ "h " ++ toString (ms / 1000 / 60 % 60) ++ "m"
       else if ms / 1000 / 60 > 0 then
        toString (ms / 1000 / 60) ++ "m " ++ toString (ms / 1000 % 60) ++ "s"
       else toString (ms / 1000) ++ "s") := by
  unfold formatDuration
  rw [if_neg (by omega)]

/-- Claim C1: the dashboard classifier was claimed to reproduce the
server-side bucket for every account and evaluation time, with rule 3
requiring nextRecoverAt strictly after now. The code diverges: at time
10, an unavailable, non-exceeded, enabled account whose nextRecoverAt
is 5 counts as error in the aggregation, while the client function
returns cooldown, because the script omits the strictly-after-now test
on next_recover_at. -/
theorem client_server_classifier_divergence :
    serverClassify recoveredAuth 10 = Bucket.error ∧
    getAccountStatus (projectAccount elr0 recoveredAuth) = "cooldown" := by
  decide

/-- Claim C2: every snapshot satisfies totalCount = length of the
accounts list, the three bucket counts sum to at most totalCount, and
the sum equals totalCount exactly when no non-nil account of the input
list is disabled. -/
theorem snapshot_count_invariant (elr : Option (List (String × MetaVal)) → Option Int)
    (auths : List (Option Auth)) (now : Int) :
    (buildMonitorResponse elr auths now).totalCount =
        (buildMonitorResponse elr auths now).accounts.length ∧
    (buildMonitorResponse elr auths now).activeCount +
        (buildMonitorResponse elr auths now).errorCount +
        (buildMonitorResponse elr auths now).cooldownCount ≤
      (buildMonitorResponse elr auths now).totalCount ∧
    ((buildMonitorResponse elr auths now).activeCount +
        (buildMonitorResponse elr auths now).errorCount +
        (buildMonitorResponse elr auths now).cooldownCount =
        (buildMonitorResponse elr auths now).totalCount ↔
      ∀ a ∈ auths.filterMap id, a.disabled = false) := by
  have hp := classCount_partition (auths.filterMap id) now
  have hd := classCount_disabled_eq_zero_iff (auths.filterMap id) now
  rw [buildMonitorResponse_spec]
  simp only [List.length_map]
  refine ⟨by trivial, by omega, ?_⟩
  rw [← hd]
  omega

/-- Claim C2 witness: on a concrete list with a nominal account, a nil
entry and a disabled account, the counts satisfy the invariant. -/
theorem snapshot_count_invariant_witness :
    (buildMonitorResponse elr0 demoList 0).totalCount =
      (buildMonitorResponse elr0 demoList 0).accounts.length :=
  (snapshot_count_invariant elr0 demoList 0).1

/-- Claim C3: an enabled, non-exceeded, unavailable account whose
nextRecoverAt is at or before now classifies server-side as error, not
cooldown: rule 3 requires a strictly future nextRecoverAt. -/
theorem recovered_unavailable_is_error (a : Auth) (now : Int)
    (hd : a.disabled = false) (hq : a.quota.exceeded = false)
    (hu : a.unavailable = true) (hr : a.quota.nextRecoverAt ≤ now) :
    serverClassify a now = Bucket.error ∧ serverClassify a now ≠ Bucket.cooldown := by
  have h : serverClassify a now = Bucket.error := by
    unfold serverClassify
    rw [if_neg (by simp [hd]), if_neg (by rw [hq, hu]; simp; omega), if_pos (by simp [hu])]
  exact ⟨h, by simp [h]⟩

/-- Claim C3 witness: at time 10, the unavailable account with
nextRecoverAt 5 is classified error. -/
theorem recovered_unavailable_is_error_witness :
    serverClassify recoveredAuth 10 = Bucket.error ∧
      serverClassify recoveredAuth 10 ≠ Bucket.cooldown :=
  recovered_unavailable_is_error recoveredAuth 10 rfl rfl rfl (by decide)

/-- Claim C4: classification precedence on both sides: a disabled
account is disabled regardless of every other field, and a non-disabled
quota-exceeded account carrying the error status classifies cooldown,
not error, both in the aggregation and in the client function. -/
theorem classify_precedence (elr : Option (List (String × MetaVal)) → Option Int)
    (a : Auth) (now : Int) :
    (a.disabled = true →
      serverClassify a now = Bucket.disabled ∧
        getAccountStatus (projectAccount elr a) = "disabled") ∧
    (a.disabled = false → a.quota.exceeded = true → a.status = "error" →
      serverClassify a now = Bucket.cooldown ∧
        getAccountStatus (projectAccount elr a) = "cooldown") := by
  constructor
  · intro h
    constructor <;> simp [serverClassify, getAccountStatus, projectAccount, h]
  · intro h1 h2 h3
    constructor <;> simp [serverClassify, getAccountStatus, projectAccount, h1, h2]

/-- Claim C4 witness: concrete disabled-and-exceeded and
exceeded-with-error-status accounts classify as the precedence says. -/
theorem classify_precedence_witness :
    serverClassify disabledAuth 0 = Bucket.disabled ∧
    serverClassify exceededErrorAuth 0 = Bucket.cooldown ∧
    getAccountStatus (projectAccount elr0 exceededErrorAuth) = "cooldown" :=
  ⟨((classify_precedence elr0 disabledAuth 0).1 rfl).1,
   ((classify_precedence elr0 exceededErrorAuth 0).2 rfl rfl rfl).1,
   ((classify_precedence elr0 exceededErrorAuth 0).2 rfl rfl rfl).2⟩

/-- Claim C5 counterexample: at 3,600,000 ms the code renders "1h 0m",
which is not the largest-two-non-zero-units rendering "1h": the minute
unit shown is zero. -/
theorem formatDuration_zero_unit_counterexample :
    formatDuration 3600000 = "1h 0m" ∧ specFormatDuration 3600000 = "1h" ∧
      formatDuration 3600000 ≠ specFormatDuration 3600000 := by
  decide

/-- Claim C5 amended: formatDuration renders a non-positive duration as
"now"; a positive duration below one minute as seconds alone; one below
one hour as minutes then seconds, the second unit even when zero; and
one of an hour or more as hours then minutes, the minute unit even when
zero. In particular 65,000 ms gives "1m 5s", 3,700,000 ms gives
"1h 1m" and 45,000 ms gives "45s". -/
theorem formatDuration_rendering :
    (∀ ms : Int, ms ≤ 0 → formatDuration ms = "now") ∧
    (∀ ms : Int, 0 < ms → ms < 60000 →
      formatDuration ms = toString (ms / 1000) ++ "s") ∧
    (∀ ms : Int, 60000 ≤ ms → ms < 3600000 →
      formatDuration ms = toString (ms / 60000) ++ "m " ++ toString (ms / 1000 % 60) ++ "s") ∧
    (∀ ms : Int, 3600000 ≤ ms →
      formatDuration ms = toString (ms / 3600000) ++ "h " ++ toString (ms / 60000 % 60) ++ "m") ∧
    formatDuration 65000 = "1m 5s" ∧ formatDuration 3700000 = "1h 1m" ∧
    formatDuration 45000 = "45s" := by
  refine ⟨?_, ?_, ?_, ?_, by decide, by decide, by decide⟩
  · intro ms h
    unfold formatDuration
    rw [if_pos h]
  · intro ms h1 h2
    rw [formatDuration_pos ms h1, if_neg (by omega), if_neg (by omega)]
  · intro ms h1 h2
    rw [formatDuration_pos ms (by omega), if_neg (by omega), if_pos (by omega),
      show ms / 1000 / 60 = ms / 60000 by omega]
  · intro ms h1
    rw [formatDuration_pos ms (by omega), if_pos (by omega),
      show ms / 1000 / 60 / 60 = ms / 3600000 by omega,
      show ms / 1000 / 60 % 60 = ms / 60000 % 60 by omega]

/-- Claim C5 witness: the now rule and the sub-minute rule evaluated at
concrete durations through the amended theorem. -/
theorem formatDuration_rendering_witness :
    formatDuration (-1) = "now" ∧
      formatDuration 45000 = toString ((45000 : Int) / 1000) ++ "s" :=
  ⟨formatDuration_rendering.1 (-1) (by decide),
   formatDuration_rendering.2.1 45000 (by decide) (by decide)⟩

/-- Claim C6: the aggregation emits the projected accounts in input
order and skips nil entries, so a list with nil entries produces the
identical snapshot as the same list with the nil entries removed. -/
theorem aggregation_skips_nil (elr : Option (List (String × MetaVal)) → Option Int)
    (l : List (Option Auth)) (now : Int) :
    buildMonitorResponse elr l now = buildMonitorResponse elr ((l.filterMap id).map some) now ∧
    (buildMonitorResponse elr l now).accounts = (l.filterMap id).map (projectAccount elr) := by
  have h2 : ((l.filterMap id).map some).filterMap id = l.filterMap id := by
    simp [List.filterMap_map]
  constructor
  · rw [buildMonitorResponse_spec, buildMonitorResponse_spec, h2]
  · rw [buildMonitorResponse_spec]

/-- Claim C7 counterexample: for an account whose last error has empty
code and message, the wire last_error map is present yet carries keys
with empty values, contradicting the populated-sub-fields claim. -/
theorem lastError_unpopulated_key_counterexample :
    (projectAccount elr0 emptyLastErrorAuth).lastError.isSome ∧
    ¬ (∀ kv ∈ (projectAccount elr0 emptyLastErrorAuth).lastError.getD [],
        jvalPopulated kv.2 = true) := by
  decide

/-- Claim C7 amended: last_error is omitted exactly when the record has
no last error; when present it always carries the code and message keys
with the underlying string values, however empty, and carries
http_status exactly when the underlying integer is non-zero. -/
theorem lastError_projection (elr : Option (List (String × MetaVal)) → Option Int)
    (a : Auth) :
    ((projectAccount elr a).lastError = none ↔ a.lastError = none) ∧
    (∀ e : AuthLastError, a.lastError = some e →
      (projectAccount elr a).lastError = some (lastErrorMap e) ∧
      ("code", JVal.jstr e.code) ∈ lastErrorMap e ∧
      ("message", JVal.jstr e.message) ∈ lastErrorMap e ∧
      ((∃ v, ("http_status", v) ∈ lastErrorMap e) ↔ e.httpStatus ≠ 0)) := by
  refine ⟨?_, ?_⟩
  · cases h : a.lastError <;> simp [projectAccount, h]
  · intro e he
    refine ⟨by simp [projectAccount, he], by simp [lastErrorMap], by simp [lastErrorMap], ?_⟩
    by_cases h0 : e.httpStatus = 0 <;> simp [lastErrorMap, h0]

/-- Claim C7 witness: a fully populated last error projects to the map
with all three keys. -/
theorem lastError_projection_witness :
    (projectAccount elr0 fullLastErrorAuth).lastError =
      some (lastErrorMap { code := "quota", message := "exhausted", httpStatus := 429 }) :=
  ((lastError_projection elr0 fullLastErrorAuth).2 _ rfl).1

/-- Claim C8: a nil handler yields 500 with a short message, a nil
authManager yields 503 with a short message, and neither error case
carries a snapshot; with both present the endpoint yields 200 with the
snapshot built from the registry list. -/
theorem monitor_endpoint_guards (elr : Option (List (String × MetaVal)) → Option Int)
    (now : Int) :
    GetAccountsMonitor elr none now = (500, MonitorBody.err "handler not initialized") ∧
    (∀ hd : Handler, hd.authManager = none →
      GetAccountsMonitor elr (some hd) now =
        (503, MonitorBody.err "auth manager not available")) ∧
    (∀ hd : Handler, ∀ l : List (Option Auth), hd.authManager = some l →
      GetAccountsMonitor elr (some hd) now =
        (200, MonitorBody.ok (buildMonitorResponse elr l now))) := by
  refine ⟨rfl, ?_, ?_⟩
  · intro hd h
    simp [GetAccountsMonitor, h]
  · intro hd l h
    simp [GetAccountsMonitor, h]

/-- Claim C8 witness: the guards evaluated at a concrete absent
authManager and at a concrete registry list. -/
theorem monitor_endpoint_guards_witness :
    GetAccountsMonitor elr0 (some emptyHandler) 0 =
      (503, MonitorBody.err "auth manager not available") ∧
    GetAccountsMonitor elr0 (some demoHandler) 0 =
      (200, MonitorBody.ok (buildMonitorResponse elr0 demoList 0)) :=
  ⟨(monitor_endpoint_guards elr0 0).2.1 emptyHandler rfl,
   (monitor_endpoint_guards elr0 0).2.2 demoHandler demoList rfl⟩

/-- Claim C9: the client filter keeps exactly the accounts passing the
conjunction of both active filters, a non-empty provider filter being a
case-insensitive substring test on the provider and a non-empty status
filter an exact match on the client classifier output; on the concrete
codex-active and claude-cooldown pair, provider "cod" with status
"active" keeps exactly the codex account. -/
theorem renderFilter_keeps (pf sf : String) (l : List AccountStatus) :
    renderFilter pf sf l = l.filter (claimKeeps pf sf) ∧
    renderFilter "cod" "active" [codexActive, claudeCooldown] = [codexActive] := by
  refine ⟨?_, by decide⟩
  unfold renderFilter
  exact List.filter_congr (fun a _ => jsKeeps_eq_claimKeeps pf sf a)

/-- Claim C10: the wire next_recover_at and next_retry_at fields are
present exactly when the corresponding registry timestamp is not the
zero time value. -/
theorem wire_timestamp_presence (elr : Option (List (String × MetaVal)) → Option Int)
    (a : Auth) :
    ((projectAccount elr a).nextRecoverAt.isSome ↔ a.quota.nextRecoverAt ≠ 0) ∧
    ((projectAccount elr a).nextRetryAt.isSome ↔ a.nextRetryAfter ≠ 0) := by
  constructor
  · by_cases h : a.quota.nextRecoverAt = 0 <;> simp [projectAccount, h]
  · by_cases h : a.nextRetryAfter = 0 <;> simp [projectAccount, h]

end AccountMonitor
